import Mathlib

/-!
Verification development for the GA4 flattener core (`cf/main.py`).

The Python source is shallowly embedded: the schema-reconciliation logic of
`GaExportedNestedDataStorage.set_dynamic_flat_events_schema`, the four query
builders, the field-name sanitizer `_create_valid_bigquery_field_name`, the
dataframe transform `transform_dataframe`, and the control flow of the
partitioned branch of `run_query_job` are each translated into executable
Lean definitions, and the specification's claims are settled as theorems
about those definitions.

Python dictionaries (3.7+) preserve insertion order, so the dynamic-field
registry `self.event_params_flat_fields` is modelled as an association list
in insertion order; dictionary assignment and membership tests are modelled
faithfully (`dictInsert`, `containsKey`).
-/

namespace GA4Flattener

/-- suffix used to denote field names in flat_events which were created from
event parameter keys (`EP_SUFFIX = '_ep'`, main.py line 62). -/
def EP_SUFFIX : String := "_ep"

/-- model of `bigquery.SchemaField`: a column name and a field type.  The
type is kept as a string because main.py handles it textually (it compares
`field_type` against string literals and stores raw fingerprint strings). -/
structure SchemaField where
  name : String
  field_type : String
deriving DecidableEq, Repr

/-- membership test `k in dict` on the insertion-ordered registry. -/
def containsKey (reg : List (String × String)) (k : String) : Bool :=
  reg.any (fun p => decide (p.1 = k))

/-- lookup `dict[k]` on the insertion-ordered registry (first binding wins;
bindings are unique by construction). -/
def lookupReg (reg : List (String × String)) (k : String) : Option String :=
  (reg.find? (fun p => decide (p.1 = k))).map (fun p => p.2)

/-- dictionary assignment `dict[k] = v`: update the binding in place if the
key exists, otherwise append a new binding (Python dict semantics). -/
def dictInsert (reg : List (String × String)) (k v : String) :
    List (String × String) :=
  if containsKey reg k then
    reg.map (fun p => if p.1 = k then (k, v) else p)
  else reg ++ [(k, v)]

/-- test `schema_field.name.endswith(EP_SUFFIX)` specialised to the constant
suffix `"_ep"` (main.py line 625). -/
def endsWithEp (s : String) : Bool :=
  match s.data.reverse with
  | 'p' :: 'e' :: '_' :: _ => true
  | _ => false

/-- strip `schema_field.name[:len(name) - len(EP_SUFFIX)]`, i.e. drop the
three characters of the `"_ep"` suffix (main.py line 627). -/
def stripEp (s : String) : String :=
  String.mk (s.data.take (s.data.length - 3))

/-- seeding loop of `set_dynamic_flat_events_schema` (main.py lines 624-628):
every existing schema field carrying the `_ep` suffix seeds the registry
with its raw key mapped to the existing field type. -/
def seedRegistry (original_schema : List SchemaField) :
    List (String × String) :=
  original_schema.foldl
    (fun reg f =>
      if endsWithEp f.name then dictInsert reg (stripEp f.name) f.field_type
      else reg)
    []

/-- observation loop of `set_dynamic_flat_events_schema` (main.py lines
631-633): each observed `(event_params_key, event_params_type)` row is
appended to the registry only if the key is not already present. -/
def addObserved (reg : List (String × String))
    (rows : List (String × String)) : List (String × String) :=
  rows.foldl (fun r row => if containsKey r row.1 then r else r ++ [row]) reg

/-- the registry `self.event_params_flat_fields` produced by
`set_dynamic_flat_events_schema` from the existing schema and the observed
key/fingerprint rows. -/
def registryOf (original_schema : List SchemaField)
    (rows : List (String × String)) : List (String × String) :=
  addObserved (seedRegistry original_schema) rows

/-- new-schema construction of `set_dynamic_flat_events_schema` (main.py
lines 635-641): copy the original schema, then append one field per
registry entry, re-attaching the `_ep` suffix. -/
def newSchemaOf (original_schema : List SchemaField)
    (rows : List (String × String)) : List SchemaField :=
  original_schema ++
    (registryOf original_schema rows).map
      (fun p => SchemaField.mk (p.1 ++ EP_SUFFIX) p.2)

/-- Modelled from the spec: the keys of `rows` that are not in `seen`,
keeping the first occurrence of each key, in first-seen order (spec sentence
"newly observed keys are appended in first-seen order").  Used as the
specification-side description that `addObserved` is proved to refine. -/
def firstSeenNew (seen : List String) :
    List (String × String) → List (String × String)
  | [] => []
  | row :: rest =>
    if row.1 ∈ seen then firstSeenNew seen rest
    else row :: firstSeenNew (row.1 :: seen) rest

lemma containsKey_iff (reg : List (String × String)) (k : String) :
    containsKey reg k = true ↔ k ∈ reg.map Prod.fst := by
  simp [containsKey, List.any_eq_true, List.mem_map]

lemma firstSeenNew_congr (s₁ s₂ : List String)
    (h : ∀ x, x ∈ s₁ ↔ x ∈ s₂) (rows : List (String × String)) :
    firstSeenNew s₁ rows = firstSeenNew s₂ rows := by
  induction rows generalizing s₁ s₂ with
  | nil => rfl
  | cons row rest ih =>
    simp only [firstSeenNew]
    by_cases hm : row.1 ∈ s₁
    · rw [if_pos hm, if_pos ((h _).1 hm)]
      exact ih s₁ s₂ h
    · rw [if_neg hm, if_neg (fun c => hm ((h _).2 c))]
      refine congrArg (row :: ·) (ih _ _ ?_)
      intro x
      simp only [List.mem_cons]
      exact or_congr Iff.rfl (h x)

lemma addObserved_eq (rows : List (String × String)) :
    ∀ reg, addObserved reg rows = reg ++ firstSeenNew (reg.map Prod.fst) rows := by
  induction rows with
  | nil =>
    intro reg
    simp [addObserved, firstSeenNew]
  | cons row rest ih =>
    intro reg
    show List.foldl _ (if containsKey reg row.1 then reg else reg ++ [row]) rest = _
    by_cases hc : containsKey reg row.1 = true
    · rw [if_pos hc]
      have hmem : row.1 ∈ reg.map Prod.fst := (containsKey_iff reg row.1).1 hc
      calc List.foldl _ reg rest
          = reg ++ firstSeenNew (reg.map Prod.fst) rest := ih reg
        _ = reg ++ firstSeenNew (reg.map Prod.fst) (row :: rest) := by
            simp only [firstSeenNew, if_pos hmem]
    · rw [if_neg hc]
      have hmem : row.1 ∉ reg.map Prod.fst :=
        fun c => hc ((containsKey_iff reg row.1).2 c)
      have step : List.foldl _ (reg ++ [row]) rest
          = (reg ++ [row]) ++ firstSeenNew ((reg ++ [row]).map Prod.fst) rest :=
        ih (reg ++ [row])
      rw [step]
      have hcong : firstSeenNew ((reg ++ [row]).map Prod.fst) rest
          = firstSeenNew (row.1 :: reg.map Prod.fst) rest := by
        refine firstSeenNew_congr _ _ ?_ rest
        intro x
        simp [List.mem_append, List.mem_cons, or_comm]
      rw [hcong]
      simp only [firstSeenNew, if_neg hmem]
      simp [List.append_assoc]

lemma firstSeenNew_not_seen :
    ∀ (rows : List (String × String)) (seen : List String)
      (p : String × String), p ∈ firstSeenNew seen rows → p.1 ∉ seen := by
  intro rows
  induction rows with
  | nil =>
    intro seen p hp
    simp [firstSeenNew] at hp
  | cons row rest ih =>
    intro seen p hp
    simp only [firstSeenNew] at hp
    by_cases hm : row.1 ∈ seen
    · rw [if_pos hm] at hp
      exact ih seen p hp
    · rw [if_neg hm] at hp
      rcases List.mem_cons.1 hp with h | h
      · subst h
        exact hm
      · intro hseen
        exact ih (row.1 :: seen) p h (List.mem_cons_of_mem _ hseen)

lemma lookupReg_append_left (a b : List (String × String)) (k : String)
    (h : containsKey a k = true) :
    lookupReg (a ++ b) k = lookupReg a k := by
  induction a with
  | nil => simp [containsKey] at h
  | cons p a' ih =>
    by_cases hk : p.1 = k
    · simp [lookupReg, List.find?, hk]
    · have h' : containsKey a' k = true := by
        simp only [containsKey, List.any_cons] at h
        rcases Bool.or_eq_true_iff.1 h with h1 | h1
        · exact absurd (of_decide_eq_true h1) hk
        · exact h1
      simp only [List.cons_append, lookupReg, List.find?]
      rw [decide_eq_false hk]
      exact ih h'

/-- additive-only schema evolution: the new events schema returned by
`set_dynamic_flat_events_schema` always starts with the complete original
schema — no field is removed, retyped or reordered, and new fields appear
only after all original fields.  (C4) -/
theorem c4_schema_additive_only (original_schema : List SchemaField)
    (rows : List (String × String)) :
    (newSchemaOf original_schema rows).take original_schema.length
        = original_schema ∧
    ∀ i, i < original_schema.length →
      (newSchemaOf original_schema rows)[i]? = original_schema[i]? := by
  constructor
  · exact List.take_left original_schema _
  · intro i hi
    exact List.getElem?_append_left hi

theorem c4_witness :
    (newSchemaOf [SchemaField.mk "a" "STRING"] [("d", "INTEGER")]).take 1
        = [SchemaField.mk "a" "STRING"] ∧
    (newSchemaOf [SchemaField.mk "a" "STRING"] [("d", "INTEGER")])[0]?
        = some (SchemaField.mk "a" "STRING") := by
  have h := c4_schema_additive_only [SchemaField.mk "a" "STRING"] [("d", "INTEGER")]
  exact ⟨h.1, h.2 0 (by decide)⟩

/-- registry precedence: a dynamic key whose type was already established
from the previously-published schema keeps that type — the fresh fingerprint
rows never change it — and the final registry is exactly the seeded registry
followed by the not-yet-seen observed keys, first occurrence only, in
first-seen order.  (C5) -/
theorem c5_existing_schema_type_wins (original_schema : List SchemaField)
    (rows : List (String × String)) :
    (∀ k, containsKey (seedRegistry original_schema) k = true →
        lookupReg (registryOf original_schema rows) k
          = lookupReg (seedRegistry original_schema) k) ∧
    registryOf original_schema rows
        = seedRegistry original_schema ++
            firstSeenNew ((seedRegistry original_schema).map Prod.fst) rows ∧
    (∀ p ∈ firstSeenNew ((seedRegistry original_schema).map Prod.fst) rows,
        containsKey (seedRegistry original_schema) p.1 = false) := by
  refine ⟨?_, addObserved_eq rows (seedRegistry original_schema), ?_⟩
  · intro k hk
    rw [registryOf, addObserved_eq rows (seedRegistry original_schema)]
    exact lookupReg_append_left _ _ k hk
  · intro p hp
    have := firstSeenNew_not_seen rows _ p hp
    rcases h : containsKey (seedRegistry original_schema) p.1 with _ | _
    · rfl
    · exact absurd ((containsKey_iff _ _).1 h) this

theorem c5_witness :
    lookupReg
      (registryOf [SchemaField.mk "c_ep" "STRING"] [("c", "INTEGER"), ("d", "INTEGER")])
      "c" = some "STRING" := by
  have h := c5_existing_schema_type_wins
    [SchemaField.mk "c_ep" "STRING"] [("c", "INTEGER"), ("d", "INTEGER")]
  have hc : containsKey (seedRegistry [SchemaField.mk "c_ep" "STRING"]) "c" = true := by
    decide
  rw [h.1 "c" hc]
  decide

/-- scenario evidence for C1: with existing schema `[a, b, c_ep(STRING)]`
and observed keys `{c, d}` (d fingerprinting to INTEGER), the code re-appends
a second `c_ep` field because the append loop at main.py lines 637-639 runs
over the whole registry, including entries seeded from the existing schema;
the result is not the `[a, b, c_ep, d_ep]` the specification requires. -/
theorem c1_schema_reconciliation_duplicates_existing_dynamic_field :
    newSchemaOf
        [SchemaField.mk "a" "STRING", SchemaField.mk "b" "STRING",
         SchemaField.mk "c_ep" "STRING"]
        [("c", "STRING"), ("d", "INTEGER")]
      = [SchemaField.mk "a" "STRING", SchemaField.mk "b" "STRING",
         SchemaField.mk "c_ep" "STRING", SchemaField.mk "c_ep" "STRING",
         SchemaField.mk "d_ep" "INTEGER"] ∧
    newSchemaOf
        [SchemaField.mk "a" "STRING", SchemaField.mk "b" "STRING",
         SchemaField.mk "c_ep" "STRING"]
        [("c", "STRING"), ("d", "INTEGER")]
      ≠ [SchemaField.mk "a" "STRING", SchemaField.mk "b" "STRING",
         SchemaField.mk "c_ep" "STRING", SchemaField.mk "d_ep" "INTEGER"] := by
  constructor
  · rfl
  · decide

/-- model of the job descriptor fields used by the query builders
(constructor arguments of `GaExportedNestedDataStorage`, main.py line 64). -/
structure Job where
  gcp_project : String
  dataset : String
  table_name : String
  date_shard : String
deriving DecidableEq, Repr

/-- fields used to build a compound id of a unique event (main.py 81-86). -/
def unique_event_id_fields : List String :=
  ["stream_id", "user_pseudo_id", "event_name", "event_timestamp"]

/-- event parameter fields (main.py 89-96). -/
def event_params_fields : List String :=
  ["event_params.key",
   "event_params.value.string_value",
   "event_params.value.int_value",
   "event_params.value.float_value",
   "event_params.value.double_value"]

/-- user property fields (main.py 99-107). -/
def user_properties_fields : List String :=
  ["user_properties.key",
   "user_properties.value.string_value",
   "user_properties.value.int_value",
   "user_properties.value.float_value",
   "user_properties.value.double_value",
   "user_properties.value.set_timestamp_micros"]

/-- item fields (main.py 110-137). -/
def items_fields : List String :=
  ["items.item_id", "items.item_name", "items.item_brand",
   "items.item_variant", "items.item_category", "items.item_category2",
   "items.item_category3", "items.item_category4", "items.item_category5",
   "items.price_in_usd", "items.price", "items.quantity",
   "items.item_revenue_in_usd", "items.item_revenue",
   "items.item_refund_in_usd", "items.item_refund", "items.coupon",
   "items.affiliation", "items.location_id", "items.item_list_id",
   "items.item_list_name", "items.item_list_index", "items.promotion_id",
   "items.promotion_name", "items.creative_name", "items.creative_slot"]

/-- top-level event fields (main.py 140-210). -/
def events_fields : List String :=
  ["event_date", "event_timestamp", "event_name",
   "event_previous_timestamp", "event_value_in_usd",
   "event_bundle_sequence_id", "event_server_timestamp_offset",
   "user_id", "user_pseudo_id",
   "privacy_info.analytics_storage", "privacy_info.ads_storage",
   "privacy_info.uses_transient_token", "user_first_touch_timestamp",
   "user_ltv.revenue", "user_ltv.currency",
   "device.category", "device.mobile_brand_name",
   "device.mobile_model_name", "device.mobile_marketing_name",
   "device.mobile_os_hardware_model", "device.operating_system",
   "device.operating_system_version", "device.vendor_id",
   "device.advertising_id", "device.language",
   "device.is_limited_ad_tracking", "device.time_zone_offset_seconds",
   "device.browser", "device.browser_version",
   "device.web_info.browser", "device.web_info.browser_version",
   "device.web_info.hostname",
   "geo.continent", "geo.country", "geo.region", "geo.city",
   "geo.sub_continent", "geo.metro",
   "app_info.id", "app_info.version", "app_info.install_store",
   "app_info.firebase_app_id", "app_info.install_source",
   "traffic_source.name", "traffic_source.medium", "traffic_source.source",
   "stream_id", "platform",
   "event_dimensions.hostname",
   "ecommerce.total_item_quantity", "ecommerce.purchase_revenue_in_usd",
   "ecommerce.purchase_revenue", "ecommerce.refund_value_in_usd",
   "ecommerce.refund_value", "ecommerce.shipping_value_in_usd",
   "ecommerce.shipping_value", "ecommerce.tax_value_in_usd",
   "ecommerce.tax_value", "ecommerce.unique_items",
   "ecommerce.transaction_id"]

/-- Python `f.replace(".", "_")` as used on the single-character pattern in
every field alias of the query builders. -/
def underscored (f : String) : String :=
  String.mk (f.data.map (fun c => if c = '.' then '_' else c))

/-- Python `s.lower()` restricted to per-character lowering (the code only
applies it to ASCII type names such as `"STRING"`). -/
def lowerStr (s : String) : String :=
  String.mk (s.data.map Char.toLower)

/-- `get_unique_event_id` (main.py 326-333): the SQL fragment
`CONCAT(%s, "_", %s, "_", %s, "_", %s) as event_id` over the four id
fields.  Only ever called with the four-element `unique_event_id_fields`
list; any other shape would raise an index error in Python. -/
def get_unique_event_id (fs : List String) : String :=
  match fs with
  | [a, b, c, d] =>
      "CONCAT(" ++ a ++ ", \"_\", " ++ b ++ ", \"_\", " ++ c ++
        ", \"_\", " ++ d ++ ") as event_id"
  | _ => ""

/-- the `FROM` clause shared by the builders:
`" FROM `{p}.{ds}.{t}_{d}`"` (main.py 347, 366, 387, 403). -/
def fromClause (j : Job) : String :=
  " FROM `" ++ j.gcp_project ++ "." ++ j.dataset ++ "." ++ j.table_name ++
    "_" ++ j.date_shard ++ "`"

/-- `get_event_params_query` (main.py 354-371). -/
def get_event_params_query (j : Job) : String :=
  "SELECT " ++ get_unique_event_id unique_event_id_fields ++
  ("," ++ (event_params_fields.get! 0) ++ " as " ++
      underscored (event_params_fields.get! 0)) ++
  (",CONCAT(IFNULL(" ++ event_params_fields.get! 1 ++
      ", ''), IFNULL(CAST(" ++ event_params_fields.get! 2 ++
      " AS STRING), ''), IFNULL(CAST(" ++ event_params_fields.get! 3 ++
      " AS STRING), ''), IFNULL(CAST(" ++ event_params_fields.get! 4 ++
      " AS STRING), '')) AS event_params_value") ++
  fromClause j ++
  ",UNNEST (event_params) AS event_params"

/-- `get_user_properties_query` (main.py 373-392). -/
def get_user_properties_query (j : Job) : String :=
  "SELECT " ++ get_unique_event_id unique_event_id_fields ++
  ("," ++ (user_properties_fields.get! 0) ++ " as " ++
      underscored (user_properties_fields.get! 0)) ++
  (",CONCAT(IFNULL(" ++ user_properties_fields.get! 1 ++
      ", ''), IFNULL(CAST(" ++ user_properties_fields.get! 2 ++
      " AS STRING), ''), IFNULL(CAST(" ++ user_properties_fields.get! 3 ++
      " AS STRING), ''), IFNULL(CAST(" ++ user_properties_fields.get! 4 ++
      " AS STRING), '')) AS user_properties_value") ++
  ("," ++ (user_properties_fields.get! 5) ++ " as " ++
      underscored (user_properties_fields.get! 5)) ++
  fromClause j ++
  ",UNNEST (user_properties) AS user_properties"

/-- `get_items_query` (main.py 394-408). -/
def get_items_query (j : Job) : String :=
  ("SELECT " ++ get_unique_event_id unique_event_id_fields ++
    items_fields.foldl (fun q f => q ++ "," ++ f ++ " as " ++ underscored f) "") ++
  fromClause j ++
  ",UNNEST (items) AS items"

/-- one dynamic column of `get_events_query` (main.py 420-424): the INTEGER
type is rewritten to `int` before lowering, then the column selects the
`<type>_value` slot for the registry key and is aliased `<key>_ep`. -/
def dynamicColumn (key f_type : String) : String :=
  let ft := if f_type = "INTEGER" then "int" else f_type
  ",(SELECT value." ++ (lowerStr ft ++ "_value") ++
    " FROM UNNEST(events.event_params) WHERE key = '" ++ key ++
    "') AS " ++ key ++ EP_SUFFIX

/-- `get_events_query` (main.py 410-428), with the dynamic columns emitted
in registry insertion order. -/
def get_events_query (j : Job) (reg : List (String × String)) : String :=
  ("SELECT " ++ get_unique_event_id unique_event_id_fields ++
    events_fields.foldl (fun q f => q ++ "," ++ f ++ " as " ++ underscored f) "" ++
    reg.foldl (fun q p => q ++ dynamicColumn p.1 p.2) "") ++
  fromClause j ++ " as events"

/-- the four entity kinds whose queries the flattener builds. -/
inductive QueryKind where
  | event_params
  | user_properties
  | items
  | events
deriving DecidableEq, Repr

/-- dispatcher over the four query builders; the registry argument is only
consulted by the events kind, mirroring `flatten_ga_data` (main.py 644-702). -/
def build_query (k : QueryKind) (j : Job) (reg : List (String × String)) :
    String :=
  match k with
  | QueryKind.event_params => get_event_params_query j
  | QueryKind.user_properties => get_user_properties_query j
  | QueryKind.items => get_items_query j
  | QueryKind.events => get_events_query j reg

/-- deterministic query text: for any of the four kinds, two calls of the
query builder on the same job descriptor and the same registry content
yield byte-identical query text.  (C6) -/
theorem c6_build_query_deterministic (k : QueryKind) (j j' : Job)
    (reg reg' : List (String × String)) (hj : j = j') (hreg : reg = reg') :
    build_query k j reg = build_query k j' reg' := by
  subst hj
  subst hreg
  rfl

theorem c6_witness :
    build_query QueryKind.events (Job.mk "p" "ds" "events" "20240101")
        [("page", "STRING")]
      = build_query QueryKind.events (Job.mk "p" "ds" "events" "20240101")
        [("page", "STRING")] :=
  c6_build_query_deterministic QueryKind.events
    (Job.mk "p" "ds" "events" "20240101") (Job.mk "p" "ds" "events" "20240101")
    [("page", "STRING")] [("page", "STRING")] rfl rfl

/-- the value-slot name referenced by a dynamic column, as the claim words
it: lowercase the recorded type and append `_value`, except that INTEGER is
special-cased to `int_value`. -/
def slotName (f_type : String) : String :=
  if f_type = "INTEGER" then "int_value" else lowerStr f_type ++ "_value"

/-- the four value slots that actually exist in the GA4 export schema
(main.py 92-95). -/
def realValueSlots : List String :=
  ["string_value", "int_value", "float_value", "double_value"]

/-- dynamic-column slot naming: every emitted dynamic column selects the
slot obtained by lowercasing the registry entry's recorded type and
appending `_value`, with INTEGER special-cased to `int_value`; for the
ambiguous fingerprint `STRINGINTEGER` the referenced slot is
`stringinteger_value`, which is none of the four real value slots.  (C9) -/
theorem c9_dynamic_column_slot_naming :
    (∀ key f_type : String,
        dynamicColumn key f_type
          = ",(SELECT value." ++ slotName f_type ++
            " FROM UNNEST(events.event_params) WHERE key = '" ++ key ++
            "') AS " ++ key ++ EP_SUFFIX) ∧
    slotName "STRINGINTEGER" = "stringinteger_value" ∧
    "stringinteger_value" ∉ realValueSlots := by
  refine ⟨?_, by rfl, by decide⟩
  intro key f_type
  by_cases h : f_type = "INTEGER"
  · subst h
    rfl
  · simp only [dynamicColumn, slotName, if_neg h]

/-- denotation of the emitted event-id SQL: BigQuery's `CONCAT` over the
four identity values with the literal `"_"` separators, exactly as in the
fragment produced by `get_unique_event_id`. -/
def evalEventId (s u n t : String) : String :=
  s ++ "_" ++ u ++ "_" ++ n ++ "_" ++ t

/-- a value avoids the event-id separator when it contains no underscore. -/
def sepFree (s : String) : Prop := '_' ∉ s.data

instance (s : String) : Decidable (sepFree s) :=
  inferInstanceAs (Decidable ('_' ∉ s.data))

lemma append_sep_inj (a₁ : List Char) :
    ∀ (a₂ b₁ b₂ : List Char), '_' ∉ a₁ → '_' ∉ a₂ →
      a₁ ++ '_' :: b₁ = a₂ ++ '_' :: b₂ → a₁ = a₂ ∧ b₁ = b₂ := by
  induction a₁ with
  | nil =>
    intro a₂ b₁ b₂ _ h₂ h
    cases a₂ with
    | nil =>
      simp only [List.nil_append, List.cons.injEq] at h
      exact ⟨rfl, h.2⟩
    | cons c t =>
      simp only [List.nil_append, List.cons_append, List.cons.injEq] at h
      exact absurd (h.1 ▸ List.mem_cons_self c t) h₂
  | cons c t ih =>
    intro a₂ b₁ b₂ h₁ h₂ h
    cases a₂ with
    | nil =>
      simp only [List.cons_append, List.nil_append, List.cons.injEq] at h
      exact absurd (h.1 ▸ List.mem_cons_self c t) h₁
    | cons c' t' =>
      simp only [List.cons_append, List.cons.injEq] at h
      have ht := ih t' b₁ b₂ (fun m => h₁ (List.mem_cons_of_mem _ m))
        (fun m => h₂ (List.mem_cons_of_mem _ m)) h.2
      exact ⟨by rw [h.1, ht.1], ht.2⟩

lemma evalEventId_data (s u n t : String) :
    (evalEventId s u n t).data
      = s.data ++ '_' :: (u.data ++ '_' :: (n.data ++ '_' :: t.data)) := by
  simp [evalEventId, String.data_append, List.append_assoc]

/-- event-identifier stability, amended: the identifier is a pure function
of the four inputs (identical tuples always yield the identical string),
and it is injective whenever the first three components — stream id, pseudo
user id and event name — contain no `_` separator character; with
separator-carrying values distinct tuples can collide (see the
counterexample).  (C3, amended) -/
theorem c3_event_id_pure_and_injective_without_separator :
    (∀ s u n t s' u' n' t' : String,
        s = s' → u = u' → n = n' → t = t' →
        evalEventId s u n t = evalEventId s' u' n' t') ∧
    (∀ s u n t s' u' n' t' : String,
        sepFree s → sepFree u → sepFree n →
        sepFree s' → sepFree u' → sepFree n' →
        evalEventId s u n t = evalEventId s' u' n' t' →
        s = s' ∧ u = u' ∧ n = n' ∧ t = t') := by
  constructor
  · intro s u n t s' u' n' t' hs hu hn ht
    rw [hs, hu, hn, ht]
  · intro s u n t s' u' n' t' hs hu hn hs' hu' hn' h
    have hdata : (evalEventId s u n t).data = (evalEventId s' u' n' t').data := by
      rw [h]
    rw [evalEventId_data, evalEventId_data] at hdata
    have h1 := append_sep_inj s.data s'.data _ _ hs hs' hdata
    have h2 := append_sep_inj u.data u'.data _ _ hu hu' h1.2
    have h3 := append_sep_inj n.data n'.data _ _ hn hn' h2.2
    exact ⟨String.ext h1.1, String.ext h2.1, String.ext h3.1,
      String.ext h3.2⟩

theorem c3_witness :
    (("1" : String) = "1" ∧ ("a" : String) = "a" ∧
      ("b" : String) = "b" ∧ ("2" : String) = "2") ∧
    evalEventId "1" "a" "b" "2" = evalEventId "1" "a" "b" "2" :=
  ⟨c3_event_id_pure_and_injective_without_separator.2 "1" "a" "b" "2"
      "1" "a" "b" "2" (by decide) (by decide) (by decide) (by decide)
      (by decide) (by decide) rfl,
   c3_event_id_pure_and_injective_without_separator.1 "1" "a" "b" "2"
      "1" "a" "b" "2" rfl rfl rfl rfl⟩

/-- counterexample to C3 as stated: two different tuples whose event names
and pseudo user ids contain the separator produce the identical event
identifier, so the identifier is not injective on arbitrary inputs. -/
theorem c3_counterexample :
    evalEventId "1" "a" "b_c" "9" = evalEventId "1" "a_b" "c" "9" ∧
    ¬ (("1", "a", "b_c", "9") = (("1", "a_b", "c", "9") :
        String × String × String × String)) := by
  constructor
  · rfl
  · decide

/-- `_create_valid_bigquery_field_name` (main.py 430-449): lowercase the
input, map every non-alphanumeric character to `_`, prepend `_` when the
result starts with a digit, and trim to the first 300 characters.  Python
indexes `r[0]` unconditionally, so the empty input raises an IndexError;
this is modelled by returning `none`.  Per-character `lower`/`isalnum`
follow the ASCII behaviour, which agrees with Python on the inputs the
flattener handles. -/
def create_valid_bigquery_field_name (p_field : String) : Option String :=
  let r : List Char :=
    (p_field.data.map Char.toLower).map
      (fun c => if c.isAlphanum then c else '_')
  match r with
  | [] => none
  | c :: _ =>
      some (String.mk (List.take 300 (if c.isDigit then '_' :: r else r)))

/-- field-name sanitization examples: `"UTM Source!"` maps to
`"utm_source_"`, `"1stVisit"` maps to `"_1stvisit"`, and every
310-character key is truncated to a result of exactly 300 characters.
(C8) -/
theorem c8_sanitization_examples :
    create_valid_bigquery_field_name "UTM Source!" = some "utm_source_" ∧
    create_valid_bigquery_field_name "1stVisit" = some "_1stvisit" ∧
    ∀ s : String, s.length = 310 →
      ∃ t, create_valid_bigquery_field_name s = some t ∧ t.length = 300 := by
  refine ⟨by decide, by decide, ?_⟩
  intro s hs
  have hlen : ((s.data.map Char.toLower).map
      (fun c => if c.isAlphanum then c else '_')).length = 310 := by
    simp [List.length_map]
    exact hs
  match hr : (s.data.map Char.toLower).map
      (fun c => if c.isAlphanum then c else '_') with
  | [] =>
      rw [hr] at hlen
      simp at hlen
  | c :: rest =>
      refine ⟨_, by rw [create_valid_bigquery_field_name, hr], ?_⟩
      rw [hr] at hlen
      show (List.take 300 (if c.isDigit then '_' :: c :: rest else c :: rest)).length = 300
      by_cases hd : c.isDigit
      · rw [if_pos hd, List.length_take]
        simp only [List.length_cons, hlen]
        decide
      · rw [if_neg hd, List.length_take]
        rw [hlen]
        decide

theorem c8_witness :
    (String.mk (List.replicate 310 'k')).length = 310 ∧
    ∃ t, create_valid_bigquery_field_name (String.mk (List.replicate 310 'k'))
        = some t ∧ t.length = 300 := by
  have h : (String.mk (List.replicate 310 'k')).length = 310 := by
    show (List.replicate 310 'k').length = 310
    exact List.length_replicate 310 'k'
  exact ⟨h, c8_sanitization_examples.2.2 (String.mk (List.replicate 310 'k')) h⟩

/-- sanitizer totality boundary: on every non-empty input the sanitizer
returns a name of at most 300 characters, but on the empty string it fails
(the unconditional leading-digit test indexes the first character of the
empty accumulated result).  (C10) -/
theorem c10_sanitizer_total_only_on_nonempty :
    (∀ s : String, s ≠ "" →
        ∃ t, create_valid_bigquery_field_name s = some t ∧ t.length ≤ 300) ∧
    create_valid_bigquery_field_name "" = none := by
  refine ⟨?_, by rfl⟩
  intro s hs
  have hdata : s.data ≠ [] := by
    intro h
    exact hs (String.ext h)
  match hr : (s.data.map Char.toLower).map
      (fun c => if c.isAlphanum then c else '_') with
  | [] =>
      exfalso
      apply hdata
      have := congrArg List.length hr
      simp only [List.length_map, List.length_nil] at this
      exact List.eq_nil_of_length_eq_zero this
  | c :: rest =>
      refine ⟨_, by rw [create_valid_bigquery_field_name, hr], ?_⟩
      show (List.take 300 (if c.isDigit then '_' :: c :: rest else c :: rest)).length ≤ 300
      rw [List.length_take]
      exact min_le_left _ _

theorem c10_witness :
    ∃ t, create_valid_bigquery_field_name "x" = some t ∧ t.length ≤ 300 :=
  c10_sanitizer_total_only_on_nonempty.1 "x" (by decide)

/-- observable control-flow outcome of the partitioned branch of
`run_query_job` (main.py 552-601). -/
structure RollingWriteTrace where
  warningLogged : Bool
  criticalLogged : Bool
  loadExecuted : Bool
  errorRaised : Option Nat
deriving DecidableEq, Repr

/-- control flow of the partition-delete-then-load sequence in
`run_query_job` (main.py 552-601).  The engine outcome of the
partition-delete job is the input: `none` means the delete succeeded,
`some code` means the delete raised an exception whose HTTP status is
`code`.  The `except` block at lines 569-573 only logs — a 404 logs a
warning, anything else logs a critical message — and control then falls
through to the load job at lines 598-601 in every case, raising nothing to
the caller. -/
def run_query_job_partitioned (deleteOutcome : Option Nat) :
    RollingWriteTrace :=
  match deleteOutcome with
  | none =>
      { warningLogged := false, criticalLogged := false,
        loadExecuted := true, errorRaised := none }
  | some code =>
      if code = 404 then
        { warningLogged := true, criticalLogged := false,
          loadExecuted := true, errorRaised := none }
      else
        { warningLogged := false, criticalLogged := true,
          loadExecuted := true, errorRaised := none }

/-- evidence for C2: when the partition-delete step fails with an error
other than 404 (here HTTP 500), the code logs a critical message, still
executes the load phase, and surfaces no error to the caller — contradicting
the requirement that the load must not run and the error be surfaced. -/
theorem c2_failed_delete_still_runs_load :
    (run_query_job_partitioned (some 500)).loadExecuted = true ∧
    (run_query_job_partitioned (some 500)).errorRaised = none ∧
    (run_query_job_partitioned (some 500)).criticalLogged = true := by
  decide

/-- one value held by a dataframe column.  Floats are modelled as rationals
(`transform_dataframe` never computes with them, it only reclassifies
columns); datetimes and calendar dates are modelled as integer-encoded
days. -/
inductive Cell where
  | na
  | cInt (i : Int)
  | cFloat (q : Rat)
  | cStr (s : String)
  | cDatetime (d : Int)
  | cDate (d : Int)
deriving DecidableEq, Repr

/-- pandas `astype(str)` is total; the exact text chosen for the non-string
cells is a deterministic stand-in for pandas rendering (its precise spelling
is not load-bearing for any claim — the claims only require that a STRING
column ends up holding text). -/
def astypeStrCell : Cell → Cell
  | Cell.na => Cell.cStr "nan"
  | Cell.cInt i => Cell.cStr (toString i)
  | Cell.cFloat q => Cell.cStr (toString q.num ++ "/" ++ toString q.den)
  | Cell.cStr s => Cell.cStr s
  | Cell.cDatetime d => Cell.cStr (toString d)
  | Cell.cDate d => Cell.cStr (toString d)

/-- pandas `astype(float)`: missing values stay missing (NaN is a float),
integers widen, floats stay; other contents make the conversion fail. -/
def astypeFloatCell : Cell → Option Cell
  | Cell.na => some Cell.na
  | Cell.cInt i => some (Cell.cFloat (i : Rat))
  | Cell.cFloat q => some (Cell.cFloat q)
  | _ => none

/-- `pd.Series(list(column), dtype=pd.Int64Dtype())` (main.py 489-490): the
nullable-integer conversion keeps missing values missing, keeps integers,
accepts only integral floats, and fails on anything else. -/
def toInt64Cell : Cell → Option Cell
  | Cell.na => some Cell.na
  | Cell.cInt i => some (Cell.cInt i)
  | Cell.cFloat q => if q.den = 1 then some (Cell.cInt q.num) else none
  | _ => none

/-- the `.dt.date` accessor (main.py 493): defined only on datetime content;
missing values pass through. -/
def dtDateCell : Cell → Option Cell
  | Cell.na => some Cell.na
  | Cell.cDatetime d => some (Cell.cDate d)
  | _ => none

/-- apply a fallible per-cell conversion across a column. -/
def mapCells (f : Cell → Option Cell) : List Cell → Option (List Cell)
  | [] => some []
  | c :: cs =>
    match f c, mapCells f cs with
    | some c', some cs' => some (c' :: cs')
    | _, _ => none

/-- the `if/elif` chain of `transform_dataframe` (main.py 484-493): the
coercion a destination field type applies to a matching column; types other
than the four listed leave the column untouched. -/
def coerceField (f_type : String) (cells : List Cell) : Option (List Cell) :=
  if f_type = "STRING" then some (cells.map astypeStrCell)
  else if f_type = "FLOAT" then mapCells astypeFloatCell cells
  else if f_type = "INTEGER" then mapCells toInt64Cell cells
  else if f_type = "DATE" then mapCells dtDateCell cells
  else some cells

/-- the inner loop of `transform_dataframe` (main.py 482-493): the schema
fields are scanned in order and every field whose name equals the column
name applies its coercion to the column. -/
def applySchema : List SchemaField → String → List Cell → Option (List Cell)
  | [], _, cells => some cells
  | f :: fs, name, cells =>
    if f.name = name then
      match coerceField f.field_type cells with
      | some cells' => applySchema fs name cells'
      | none => none
    else applySchema fs name cells

/-- a dataframe is an ordered list of named columns. -/
abbrev DataFrame : Type := List (String × List Cell)

/-- number of rows of the dataframe (every pandas column has this length). -/
def numRows (df : DataFrame) : Nat :=
  match df with
  | [] => 0
  | c :: _ => c.2.length

/-- the assignment `dataframe[self.partitioning_column] = self.date`
(main.py 468): overwrite the `event_date` column with the job's date in
every row if the column exists, otherwise append it as a new last column. -/
def setPartitionCol (df : DataFrame) (jobDate : Int) : DataFrame :=
  if df.any (fun c => decide (c.1 = "event_date")) then
    df.map
      (fun c =>
        if c.1 = "event_date" then
          (c.1, List.replicate c.2.length (Cell.cDatetime jobDate))
        else c)
  else df ++
    [("event_date", List.replicate (numRows df) (Cell.cDatetime jobDate))]

/-- apply the schema-driven coercions to every column (main.py 481-493). -/
def transformCols (schema : List SchemaField) :
    List (String × List Cell) → Option (List (String × List Cell))
  | [] => some []
  | c :: cs =>
    match applySchema schema c.1 c.2, transformCols schema cs with
    | some cells', some cs' => some ((c.1, cells') :: cs')
    | _, _ => none

/-- the column move at main.py 496-498: read the `event_date` column, drop
it, and re-insert it at position 0. -/
def moveFront (df : List (String × List Cell)) :
    Option (List (String × List Cell)) :=
  match df.find? (fun c => decide (c.1 = "event_date")) with
  | some c => some (c :: df.filter (fun c' => decide (¬ c'.1 = "event_date")))
  | none => none

/-- `transform_dataframe` (main.py 451-500) for a given destination schema
(the entry of `self.partitioned_table_schemas` for the table type) and the
job's date (`self.date`, parsed from `date_shard`). -/
def transform_dataframe (df : DataFrame) (schema : List SchemaField)
    (jobDate : Int) : Option DataFrame :=
  (transformCols schema (setPartitionCol df jobDate)).bind moveFront

/-- canonical `flat_event_params` schema (main.py 213-218). -/
def flat_event_params_schema : List SchemaField :=
  [SchemaField.mk "event_date" "DATE",
   SchemaField.mk "event_id" "STRING",
   SchemaField.mk "event_params_key" "STRING",
   SchemaField.mk "event_params_value" "STRING"]

/-- canonical `flat_events` schema (main.py 220-282). -/
def flat_events_schema : List SchemaField :=
  [SchemaField.mk "event_date" "DATE",
   SchemaField.mk "event_id" "STRING",
   SchemaField.mk "event_timestamp" "INTEGER",
   SchemaField.mk "event_name" "STRING",
   SchemaField.mk "event_previous_timestamp" "INTEGER",
   SchemaField.mk "event_value_in_usd" "FLOAT",
   SchemaField.mk "event_bundle_sequence_id" "INTEGER",
   SchemaField.mk "event_server_timestamp_offset" "INTEGER",
   SchemaField.mk "user_id" "STRING",
   SchemaField.mk "user_pseudo_id" "STRING",
   SchemaField.mk "privacy_info_analytics_storage" "STRING",
   SchemaField.mk "privacy_info_ads_storage" "STRING",
   SchemaField.mk "privacy_info_uses_transient_token" "STRING",
   SchemaField.mk "user_first_touch_timestamp" "INTEGER",
   SchemaField.mk "user_ltv_revenue" "FLOAT",
   SchemaField.mk "user_ltv_currency" "STRING",
   SchemaField.mk "device_category" "STRING",
   SchemaField.mk "device_mobile_brand_name" "STRING",
   SchemaField.mk "device_mobile_model_name" "STRING",
   SchemaField.mk "device_mobile_marketing_name" "STRING",
   SchemaField.mk "device_mobile_os_hardware_model" "STRING",
   SchemaField.mk "device_operating_system" "STRING",
   SchemaField.mk "device_operating_system_version" "STRING",
   SchemaField.mk "device_vendor_id" "STRING",
   SchemaField.mk "device_advertising_id" "STRING",
   SchemaField.mk "device_language" "STRING",
   SchemaField.mk "device_is_limited_ad_tracking" "STRING",
   SchemaField.mk "device_time_zone_offset_seconds" "INTEGER",
   SchemaField.mk "device_browser" "STRING",
   SchemaField.mk "device_browser_version" "STRING",
   SchemaField.mk "device_web_info_browser" "STRING",
   SchemaField.mk "device_web_info_browser_version" "STRING",
   SchemaField.mk "device_web_info_hostname" "STRING",
   SchemaField.mk "geo_continent" "STRING",
   SchemaField.mk "geo_country" "STRING",
   SchemaField.mk "geo_region" "STRING",
   SchemaField.mk "geo_city" "STRING",
   SchemaField.mk "geo_sub_continent" "STRING",
   SchemaField.mk "geo_metro" "STRING",
   SchemaField.mk "app_info_id" "STRING",
   SchemaField.mk "app_info_version" "STRING",
   SchemaField.mk "app_info_install_store" "STRING",
   SchemaField.mk "app_info_firebase_app_id" "STRING",
   SchemaField.mk "app_info_install_source" "STRING",
   SchemaField.mk "traffic_source_name" "STRING",
   SchemaField.mk "traffic_source_medium" "STRING",
   SchemaField.mk "traffic_source_source" "STRING",
   SchemaField.mk "stream_id" "STRING",
   SchemaField.mk "platform" "STRING",
   SchemaField.mk "event_dimensions_hostname" "STRING",
   SchemaField.mk "ecommerce_total_item_quantity" "INTEGER",
   SchemaField.mk "ecommerce_purchase_revenue_in_usd" "FLOAT",
   SchemaField.mk "ecommerce_purchase_revenue" "FLOAT",
   SchemaField.mk "ecommerce_refund_value_in_usd" "FLOAT",
   SchemaField.mk "ecommerce_refund_value" "FLOAT",
   SchemaField.mk "ecommerce_shipping_value_in_usd" "FLOAT",
   SchemaField.mk "ecommerce_shipping_value" "FLOAT",
   SchemaField.mk "ecommerce_tax_value_in_usd" "FLOAT",
   SchemaField.mk "ecommerce_tax_value" "FLOAT",
   SchemaField.mk "ecommerce_unique_items" "INTEGER",
   SchemaField.mk "ecommerce_transaction_id" "STRING"]

/-- canonical `flat_items` schema (main.py 284-313). -/
def flat_items_schema : List SchemaField :=
  [SchemaField.mk "event_date" "DATE",
   SchemaField.mk "event_id" "STRING",
   SchemaField.mk "items_item_id" "STRING",
   SchemaField.mk "items_item_name" "STRING",
   SchemaField.mk "items_item_brand" "STRING",
   SchemaField.mk "items_item_variant" "STRING",
   SchemaField.mk "items_item_category" "STRING",
   SchemaField.mk "items_item_category2" "STRING",
   SchemaField.mk "items_item_category3" "STRING",
   SchemaField.mk "items_item_category4" "STRING",
   SchemaField.mk "items_item_category5" "STRING",
   SchemaField.mk "items_price_in_usd" "FLOAT",
   SchemaField.mk "items_price" "FLOAT",
   SchemaField.mk "items_quantity" "INTEGER",
   SchemaField.mk "items_item_revenue_in_usd" "FLOAT",
   SchemaField.mk "items_item_revenue" "FLOAT",
   SchemaField.mk "items_item_refund_in_usd" "FLOAT",
   SchemaField.mk "items_item_refund" "FLOAT",
   SchemaField.mk "items_coupon" "STRING",
   SchemaField.mk "items_affiliation" "STRING",
   SchemaField.mk "items_location_id" "STRING",
   SchemaField.mk "items_item_list_id" "STRING",
   SchemaField.mk "items_item_list_name" "STRING",
   SchemaField.mk "items_item_list_index" "STRING",
   SchemaField.mk "items_promotion_id" "STRING",
   SchemaField.mk "items_promotion_name" "STRING",
   SchemaField.mk "items_creative_name" "STRING",
   SchemaField.mk "items_creative_slot" "STRING"]

/-- canonical `flat_user_properties` schema (main.py 315-321). -/
def flat_user_properties_schema : List SchemaField :=
  [SchemaField.mk "event_date" "DATE",
   SchemaField.mk "event_id" "STRING",
   SchemaField.mk "user_properties_key" "STRING",
   SchemaField.mk "user_properties_value" "STRING",
   SchemaField.mk "user_properties_value_set_timestamp_micros" "INTEGER"]

/-- `self.partitioned_table_schemas.get(table_type, None)` on the initial
schema map (main.py 212-322, 479); `set_dynamic_flat_events_schema` later
replaces the `flat_events` entry with `newSchemaOf`. -/
def tableSchemas (table_type : String) : Option (List SchemaField) :=
  if table_type = "flat_event_params" then some flat_event_params_schema
  else if table_type = "flat_events" then some flat_events_schema
  else if table_type = "flat_items" then some flat_items_schema
  else if table_type = "flat_user_properties" then some flat_user_properties_schema
  else none

/-- what the specification requires of a column written with a given
canonical field type: STRING holds text, FLOAT holds floating-point values
or missing, INTEGER holds a nullable integer — an integer or missing, never
a float — and DATE holds calendar dates or missing. -/
def cellsTyped (f_type : String) (cells : List Cell) : Prop :=
  if f_type = "STRING" then ∀ c ∈ cells, ∃ s, c = Cell.cStr s
  else if f_type = "FLOAT" then
    ∀ c ∈ cells, c = Cell.na ∨ ∃ q, c = Cell.cFloat q
  else if f_type = "INTEGER" then
    ∀ c ∈ cells, c = Cell.na ∨ ∃ i, c = Cell.cInt i
  else if f_type = "DATE" then
    ∀ c ∈ cells, c = Cell.na ∨ ∃ d, c = Cell.cDate d
  else True

lemma mapCells_mem (f : Cell → Option Cell) :
    ∀ (l l' : List Cell), mapCells f l = some l' →
      ∀ y ∈ l', ∃ x ∈ l, f x = some y := by
  intro l
  induction l with
  | nil =>
    intro l' h y hy
    simp only [mapCells, Option.some.injEq] at h
    subst h
    simp at hy
  | cons c cs ih =>
    intro l' h y hy
    simp only [mapCells] at h
    cases hf : f c with
    | none =>
      rw [hf] at h
      simp at h
    | some c' =>
      rw [hf] at h
      cases hrest : mapCells f cs with
      | none =>
        rw [hrest] at h
        simp at h
      | some cs' =>
        rw [hrest] at h
        simp only [Option.some.injEq] at h
        subst h
        rcases List.mem_cons.1 hy with hy | hy
        · exact ⟨c, List.mem_cons_self c cs, hy ▸ hf⟩
        · rcases ih cs' hrest y hy with ⟨x, hx, hfx⟩
          exact ⟨x, List.mem_cons_of_mem c hx, hfx⟩

lemma mapCells_dtDate_replicate (n : Nat) (jd : Int) :
    mapCells dtDateCell (List.replicate n (Cell.cDatetime jd))
      = some (List.replicate n (Cell.cDate jd)) := by
  induction n with
  | zero => rfl
  | succ m ih =>
    simp only [List.replicate, mapCells, dtDateCell, ih]

lemma applySchema_no_match (name : String) (cells : List Cell) :
    ∀ schema : List SchemaField,
      schema.filter (fun f => decide (f.name = name)) = [] →
      applySchema schema name cells = some cells := by
  intro schema
  induction schema generalizing cells with
  | nil =>
    intro _
    rfl
  | cons f fs ih =>
    intro hfilter
    by_cases hf : f.name = name
    · rw [List.filter_cons_of_pos (by simpa using hf)] at hfilter
      exact absurd hfilter (List.cons_ne_nil _ _)
    · rw [List.filter_cons_of_neg (by simpa using hf)] at hfilter
      simp only [applySchema, if_neg hf]
      exact ih cells hfilter

lemma applySchema_single (name : String) (fld : SchemaField) :
    ∀ (schema : List SchemaField) (cells : List Cell),
      schema.filter (fun f => decide (f.name = name)) = [fld] →
      applySchema schema name cells = coerceField fld.field_type cells := by
  intro schema
  induction schema with
  | nil =>
    intro cells hfilter
    simp [List.filter] at hfilter
  | cons f fs ih =>
    intro cells hfilter
    by_cases hf : f.name = name
    · rw [List.filter_cons_of_pos (by simpa using hf)] at hfilter
      simp only [List.cons.injEq] at hfilter
      rcases hfilter with ⟨hfld, hrest⟩
      subst hfld
      simp only [applySchema, if_pos hf]
      cases hc : coerceField f.field_type cells with
      | none => rfl
      | some cells' => exact applySchema_no_match name cells' fs hrest
    · rw [List.filter_cons_of_neg (by simpa using hf)] at hfilter
      simp only [applySchema, if_neg hf]
      exact ih cells hfilter

lemma astypeStrCell_isStr (x : Cell) : ∃ s, astypeStrCell x = Cell.cStr s := by
  cases x <;> exact ⟨_, rfl⟩

lemma coerceField_typed (f_type : String) (cells cells' : List Cell)
    (h : coerceField f_type cells = some cells') :
    cellsTyped f_type cells' := by
  unfold coerceField at h
  unfold cellsTyped
  by_cases h1 : f_type = "STRING"
  · rw [if_pos h1] at h ⊢
    simp only [Option.some.injEq] at h
    subst h
    intro c hc
    rcases List.mem_map.1 hc with ⟨x, _, hx⟩
    rcases astypeStrCell_isStr x with ⟨s, hs⟩
    exact ⟨s, by rw [← hx, hs]⟩
  · rw [if_neg h1] at h ⊢
    by_cases h2 : f_type = "FLOAT"
    · rw [if_pos h2] at h ⊢
      intro c hc
      rcases mapCells_mem astypeFloatCell cells cells' h c hc with ⟨x, _, hx⟩
      cases x with
      | na =>
        simp only [astypeFloatCell, Option.some.injEq] at hx
        exact Or.inl hx.symm
      | cInt i =>
        simp only [astypeFloatCell, Option.some.injEq] at hx
        exact Or.inr ⟨_, hx.symm⟩
      | cFloat q =>
        simp only [astypeFloatCell, Option.some.injEq] at hx
        exact Or.inr ⟨_, hx.symm⟩
      | cStr s => simp [astypeFloatCell] at hx
      | cDatetime d => simp [astypeFloatCell] at hx
      | cDate d => simp [astypeFloatCell] at hx
    · rw [if_neg h2] at h ⊢
      by_cases h3 : f_type = "INTEGER"
      · rw [if_pos h3] at h ⊢
        intro c hc
        rcases mapCells_mem toInt64Cell cells cells' h c hc with ⟨x, _, hx⟩
        cases x with
        | na =>
          simp only [toInt64Cell, Option.some.injEq] at hx
          exact Or.inl hx.symm
        | cInt i =>
          simp only [toInt64Cell, Option.some.injEq] at hx
          exact Or.inr ⟨_, hx.symm⟩
        | cFloat q =>
          simp only [toInt64Cell] at hx
          by_cases hq : q.den = 1
          · rw [if_pos hq] at hx
            simp only [Option.some.injEq] at hx
            exact Or.inr ⟨_, hx.symm⟩
          · rw [if_neg hq] at hx
            exact absurd hx (Option.noConfusion)
        | cStr s => simp [toInt64Cell] at hx
        | cDatetime d => simp [toInt64Cell] at hx
        | cDate d => simp [toInt64Cell] at hx
      · rw [if_neg h3] at h ⊢
        by_cases h4 : f_type = "DATE"
        · rw [if_pos h4] at h ⊢
          intro c hc
          rcases mapCells_mem dtDateCell cells cells' h c hc with ⟨x, _, hx⟩
          cases x with
          | na =>
            simp only [dtDateCell, Option.some.injEq] at hx
            exact Or.inl hx.symm
          | cDatetime d =>
            simp only [dtDateCell, Option.some.injEq] at hx
            exact Or.inr ⟨_, hx.symm⟩
          | cInt i => simp [dtDateCell] at hx
          | cFloat q => simp [dtDateCell] at hx
          | cStr s => simp [dtDateCell] at hx
          | cDate d => simp [dtDateCell] at hx
        · rw [if_neg h4] at h ⊢
          trivial

lemma setPartitionCol_ed (df : DataFrame) (jd : Int) :
    ∀ x ∈ setPartitionCol df jd, x.1 = "event_date" →
      ∃ m, x.2 = List.replicate m (Cell.cDatetime jd) := by
  intro x hx hxn
  unfold setPartitionCol at hx
  by_cases hany : df.any (fun c => decide (c.1 = "event_date")) = true
  · rw [if_pos hany] at hx
    rcases List.mem_map.1 hx with ⟨c0, _, hmap⟩
    by_cases h0 : c0.1 = "event_date"
    · rw [if_pos h0] at hmap
      exact ⟨c0.2.length, by rw [← hmap]⟩
    · rw [if_neg h0] at hmap
      exact absurd (hmap ▸ hxn) h0
  · rw [if_neg hany] at hx
    rcases List.mem_append.1 hx with h | h
    · exact absurd (List.any_eq_true.2 ⟨x, h, by simpa using hxn⟩) hany
    · rcases List.mem_singleton.1 h with rfl
      exact ⟨numRows df, rfl⟩

lemma transformCols_mem (schema : List SchemaField) :
    ∀ (l l' : List (String × List Cell)), transformCols schema l = some l' →
      ∀ y ∈ l', ∃ x ∈ l, x.1 = y.1 ∧ applySchema schema x.1 x.2 = some y.2 := by
  intro l
  induction l with
  | nil =>
    intro l' h y hy
    simp only [transformCols, Option.some.injEq] at h
    subst h
    simp at hy
  | cons c cs ih =>
    intro l' h y hy
    simp only [transformCols] at h
    cases hap : applySchema schema c.1 c.2 with
    | none =>
      rw [hap] at h
      simp at h
    | some cells' =>
      rw [hap] at h
      cases hrest : transformCols schema cs with
      | none =>
        rw [hrest] at h
        simp at h
      | some cs' =>
        rw [hrest] at h
        simp only [Option.some.injEq] at h
        subst h
        rcases List.mem_cons.1 hy with hy | hy
        · subst hy
          exact ⟨c, List.mem_cons_self c cs, rfl, hap⟩
        · rcases ih cs' hrest y hy with ⟨x, hx, hx1, hx2⟩
          exact ⟨x, List.mem_cons_of_mem c hx, hx1, hx2⟩

/-- rolling-load transform: whenever `transform_dataframe` succeeds for a
table type with a known canonical schema, the result's first column is the
partition tag `event_date` holding the job's date in every row, and every
other column matching a canonical field is coerced to that field's type —
STRING columns hold text, FLOAT columns hold floats or missing, INTEGER
columns hold a nullable integer representation (an integer or missing,
never a float), DATE columns hold calendar dates or missing.  (C7) -/
theorem c7_transform_dataframe_coerces_and_tags
    (table_type : String) (schema : List SchemaField) (jobDate : Int)
    (df df' : DataFrame)
    (hschema : tableSchemas table_type = some schema)
    (hED : schema.filter (fun f => decide (f.name = "event_date"))
        = [SchemaField.mk "event_date" "DATE"])
    (hrun : transform_dataframe df schema jobDate = some df') :
    (∃ cells rest, df' = ("event_date", cells) :: rest ∧
        ∀ c ∈ cells, c = Cell.cDate jobDate) ∧
    (∀ name cells fld, (name, cells) ∈ df' → ¬ name = "event_date" →
        schema.filter (fun f => decide (f.name = name)) = [fld] →
        cellsTyped fld.field_type cells) := by
  unfold transform_dataframe at hrun
  cases htc : transformCols schema (setPartitionCol df jobDate) with
  | none =>
    rw [htc] at hrun
    simp at hrun
  | some df2 =>
    rw [htc] at hrun
    replace hrun : moveFront df2 = some df' := hrun
    unfold moveFront at hrun
    cases hfind : df2.find? (fun c => decide (c.1 = "event_date")) with
    | none =>
      rw [hfind] at hrun
      simp at hrun
    | some c =>
      rw [hfind] at hrun
      simp only [Option.some.injEq] at hrun
      have pc : c.1 = "event_date" := by
        have := List.find?_some hfind
        simpa using this
      have hcdf2 : c ∈ df2 := List.mem_of_find?_eq_some hfind
      constructor
      · -- the first column is the partition tag with the job's date
        rcases transformCols_mem schema _ df2 htc c hcdf2 with ⟨x, hxmem, hx1, hx2⟩
        rcases setPartitionCol_ed df jobDate x hxmem (hx1.trans pc) with ⟨m, hm⟩
        have hap : applySchema schema x.1 x.2
            = coerceField "DATE" x.2 := by
          rw [hx1, pc]
          exact applySchema_single "event_date" (SchemaField.mk "event_date" "DATE")
            schema x.2 hED
        rw [hap] at hx2
        have : coerceField "DATE" x.2 = mapCells dtDateCell x.2 := by
          rfl
        rw [this, hm, mapCells_dtDate_replicate m jobDate] at hx2
        simp only [Option.some.injEq] at hx2
        refine ⟨c.2, df2.filter (fun c' => decide (¬ c'.1 = "event_date")), ?_, ?_⟩
        · rw [← hrun]
          have hcpair : c = ("event_date", c.2) := by
            rw [← pc]
          rw [← hcpair]
        · intro cell hcell
          rw [← hx2] at hcell
          exact List.eq_of_mem_replicate hcell
      · -- every other canonical column is coerced to its field type
        intro name cells fld hmem hname hfilter
        rw [← hrun] at hmem
        rcases List.mem_cons.1 hmem with heq | hmemf
        · exact absurd (by rw [← heq] at pc; exact pc) hname
        · have hmem2 : (name, cells) ∈ df2 := List.mem_of_mem_filter hmemf
          rcases transformCols_mem schema _ df2 htc _ hmem2 with ⟨x, _, hx1, hx2⟩
          have hap : applySchema schema x.1 x.2
              = coerceField fld.field_type x.2 := by
            rw [hx1]
            exact applySchema_single name fld schema x.2 hfilter
          rw [hap] at hx2
          exact coerceField_typed fld.field_type x.2 cells hx2

theorem c7_witness :
    (∃ cells rest,
        ([("event_date", [Cell.cDate 19724]),
          ("event_id", [Cell.cStr "e"]),
          ("event_params_key", [Cell.cStr "k"]),
          ("event_params_value", [Cell.cStr "nan"])] : DataFrame)
          = ("event_date", cells) :: rest ∧
        ∀ c ∈ cells, c = Cell.cDate 19724) ∧
    (∀ name cells fld,
        (name, cells) ∈
          ([("event_date", [Cell.cDate 19724]),
            ("event_id", [Cell.cStr "e"]),
            ("event_params_key", [Cell.cStr "k"]),
            ("event_params_value", [Cell.cStr "nan"])] : DataFrame) →
        ¬ name = "event_date" →
        flat_event_params_schema.filter (fun f => decide (f.name = name)) = [fld] →
        cellsTyped fld.field_type cells) :=
  c7_transform_dataframe_coerces_and_tags "flat_event_params"
    flat_event_params_schema 19724
    [("event_id", [Cell.cStr "e"]), ("event_params_key", [Cell.cStr "k"]),
     ("event_params_value", [Cell.na])]
    [("event_date", [Cell.cDate 19724]),
     ("event_id", [Cell.cStr "e"]),
     ("event_params_key", [Cell.cStr "k"]),
     ("event_params_value", [Cell.cStr "nan"])]
    rfl (by decide) (by decide)

end GA4Flattener
